import Mathlib

/-!
Shallow embedding of the Ayurvedic-Diet recommendation engine
(`src/backend/src/services/nutrition.js` and
`src/backend/src/services/ruleEngine.js`, the core specified by the spec).

Modelling conventions:
* JavaScript numbers are modelled as `ℚ`; `Math.round` is `jround`
  (round half toward positive infinity, as in JS), `Math.floor` is
  `Int.floor`, `Math.max`/`Math.min` are `max`/`min`.
* JavaScript strings are Lean `String`s, but every string operation is
  implemented here by structural recursion over `String.data`
  (`List Char`) so that terms reduce; `toLowerCase`/`toUpperCase` are
  per-character ASCII case maps, faithful to the repository's ASCII data.
* A missing (`undefined`) string field and the empty string are both
  falsy in JS and behave identically in every `||` / truthiness test the
  engine performs, so optional string fields are modelled as `String`
  with `""` for "missing".  Numeric fields read through `||` are
  modelled as `ℚ` with `0` for "missing" (`0` is falsy).  Fields read
  with destructuring defaults or `??` (nullish coalescing) distinguish
  `undefined` from present falsy values and are modelled as `Option`.
* The ambient clock (`new Date().getMonth() + 1` and `Date.now()`) is
  made explicit: `buildPlan` takes the current 1-based `month` and
  `calculateBMR` the current epoch-milliseconds `now`; `Date.parse(dob)`
  is modelled by storing the parsed epoch-milliseconds in `Profile.dob`.
-/

/-- JS `a || b` for strings (`""` is the only falsy string). -/
def jsOrS (a b : String) : String := if a = "" then b else a

/-- JS `a || b` for (non-NaN) numbers (`0` is the falsy number). -/
def jsOrQ (a b : ℚ) : ℚ := if a = 0 then b else a

/-- JS `Math.round`: round half toward positive infinity. -/
def jround (x : ℚ) : Int := Int.floor (x + 1/2)

/-- ASCII `toLowerCase`, character-wise over the string's data. -/
def lowerStr (s : String) : String := ⟨s.data.map Char.toLower⟩

/-- ASCII `toUpperCase`, character-wise over the string's data. -/
def upperStr (s : String) : String := ⟨s.data.map Char.toUpper⟩

/-- `isPrefixB pre l` decides whether `pre` is a prefix of `l`
(JS `String.prototype.startsWith`). -/
def isPrefixB : List Char → List Char → Bool
  | [], _ => true
  | _ :: _, [] => false
  | a :: as, b :: bs => a == b && isPrefixB as bs

/-- `hasSubstrB sub l` decides whether `sub` occurs contiguously in `l`
(JS `String.prototype.includes` / a literal-alternation regex test). -/
def hasSubstrB (sub : List Char) : List Char → Bool
  | [] => isPrefixB sub []
  | c :: rest => isPrefixB sub (c :: rest) || hasSubstrB sub rest

/-- JS `String.prototype.split` with a single-character separator;
`"".split(sep)` is `[""]`, hence the base case `[[]]`. -/
def splitCh (sep : Char) : List Char → List (List Char)
  | [] => [[]]
  | c :: rest =>
    match splitCh sep rest with
    | [] => [[c]]
    | h :: t => if c == sep then [] :: h :: t else (c :: h) :: t

/-- ASCII whitespace for `String.prototype.trim`. -/
def isWSpace (c : Char) : Bool := c == ' ' || c == '\t' || c == '\n' || c == '\r'

/-- JS `String.prototype.trim` on character lists (ASCII whitespace). -/
def trimChars (l : List Char) : List Char :=
  ((l.dropWhile isWSpace).reverse.dropWhile isWSpace).reverse

/-- JS `Array.prototype.join` with a separator string. -/
def joinSep (sep : String) : List String → String
  | [] => ""
  | [x] => x
  | x :: y :: rest => x ++ sep ++ joinSep sep (y :: rest)

/-- JS `s.charAt(0).toUpperCase() + s.slice(1)`. -/
def capFirst (s : String) : String :=
  match s.data with
  | [] => ""
  | c :: rest => ⟨c.toUpper :: rest⟩

/-- JS `Number.prototype.toFixed(1)`.  Every score produced by the
engine is an integer multiple of `1/2`, so `x * 10` is an integer and
the JS decimal rounding is exact; `jround` agrees with it there. -/
def toFixed1 (q : ℚ) : String :=
  let n : Int := jround (q * 10)
  (if n < 0 then "-" else "") ++ toString (n.natAbs / 10) ++ "." ++ toString (n.natAbs % 10)

/-- A catalog food item.  Field names follow the JS objects consumed by
`ruleEngine.js`/`nutrition.js`; `oid` embeds the Mongo `_id` field.
String fields default to `""` (missing), numeric fields to `0`
(missing), matching how the engine reads them through `||`. -/
structure Food where
  food_id : String := ""
  id : String := ""
  oid : String := ""
  name : String := ""
  dosha_impact : String := ""
  dosha_tags : String := ""
  tastes : String := ""
  rasa : String := ""
  qualities : String := ""
  energy : String := ""
  virya : String := ""
  season : String := ""
  notes : String := ""
  type : String := ""
  calories_100g : ℚ := 0
  calories_per_100g : ℚ := 0
  calories : ℚ := 0
  protein_100g : ℚ := 0
  protein : ℚ := 0
  carbs_100g : ℚ := 0
  fat_100g : ℚ := 0
deriving DecidableEq, Repr

/-- The `preferences` sub-object of a profile. -/
structure Prefs where
  liked : List String := []
  disliked : List String := []
deriving DecidableEq, Repr

/-- A user profile as consumed by the engine.  `dob` holds the
`Date.parse` result (epoch milliseconds) of a present, parseable
date-of-birth string; fields read with destructuring defaults or `??`
are `Option`s so that a present falsy value is distinguished from a
missing one, exactly as in JS. -/
structure Profile where
  dosha_result : String := ""
  sex : Option String := none
  height_cm : Option ℚ := none
  weight_kg : Option ℚ := none
  age_years : Option ℚ := none
  dob : Option Int := none
  activity_level : Option String := none
  health_goals : List String := []
  allergies : List String := []
  preferences : Option Prefs := none
  medical_conditions : List String := []
deriving DecidableEq, Repr

/-- `calculateBMR` (`nutrition.js`): Mifflin-St Jeor with silent
defaults sex `'M'`, height `170`, weight `70`; age is `age_years` if
given, else derived from `dob` and the clock, else `25`. -/
def calculateBMR (p : Profile) (now : Int) : ℚ :=
  let age : ℚ :=
    match p.age_years with
    | some a => a
    | none =>
      match p.dob with
      | some d => ((Int.floor (((now : ℚ) - (d : ℚ)) / 31557600000) : Int) : ℚ)
      | none => 25
  let s : ℚ := if p.sex.getD "M" = "M" then 5 else -161
  10 * p.weight_kg.getD 70 + 6.25 * p.height_cm.getD 170 - 5 * age + s

/-- The activity-factor table of `calculateTDEE`, with the `?? 1.55`
fallback for an unmatched key. -/
def activityFactor (lvl : String) : ℚ :=
  if lvl = "sedentary" then 1.2
  else if lvl = "light" then 1.375
  else if lvl = "moderate" then 1.55
  else if lvl = "active" then 1.725
  else if lvl = "very_active" then 1.9
  else 1.55

/-- `calculateTDEE` (`nutrition.js`): BMR times the activity factor,
rounded; `activity_level` defaults to `'moderate'`. -/
def calculateTDEE (p : Profile) (now : Int) : Int :=
  jround (calculateBMR p now * activityFactor (p.activity_level.getD "moderate"))

/-- `calculateTargetCalories` (`nutrition.js`): TDEE adjusted by the
first matching goal; `weight_loss`/`weight_gain` also match their
title-case spellings, `muscle_gain` only the underscore spelling. -/
def calculateTargetCalories (p : Profile) (now : Int) : Int :=
  let tdee := calculateTDEE p now
  let goals := p.health_goals
  if goals.contains "weight_loss" || goals.contains "Weight Loss" then
    jround ((tdee : ℚ) * 0.8)
  else if goals.contains "weight_gain" || goals.contains "Weight Gain" then
    jround ((tdee : ℚ) * 1.15)
  else if goals.contains "muscle_gain" then
    jround ((tdee : ℚ) * 1.1)
  else tdee

/-- The percentage triple returned by `getMacroTargets`. -/
structure MacroTargets where
  protein : ℚ
  carbs : ℚ
  fats : ℚ
deriving DecidableEq, Repr

/-- `getMacroTargets` (`nutrition.js`): goal-based override, else
dosha-based by case-sensitive substring match, else a default. -/
def getMacroTargets (p : Profile) : MacroTargets :=
  let goals := p.health_goals
  let dosha := jsOrS p.dosha_result "Vata"
  if goals.contains "weight_loss" then { protein := 30, carbs := 40, fats := 30 }
  else if goals.contains "muscle_gain" then { protein := 25, carbs := 50, fats := 25 }
  else if hasSubstrB "Vata".data dosha.data then { protein := 20, carbs := 50, fats := 30 }
  else if hasSubstrB "Pitta".data dosha.data then { protein := 20, carbs := 55, fats := 25 }
  else if hasSubstrB "Kapha".data dosha.data then { protein := 25, carbs := 45, fats := 30 }
  else { protein := 20, carbs := 55, fats := 25 }

/-- The macros computed for a portion of a food. -/
structure FoodMacros where
  calories : Int
  protein : ℚ
  carbs : ℚ
  fats : ℚ
deriving DecidableEq, Repr

/-- `calculateFoodMacros` (`nutrition.js`): linear scaling by
`grams / 100`; calories rounded to an integer, the rest to one
decimal. -/
def calculateFoodMacros (f : Food) (grams : ℚ) : FoodMacros :=
  let scale := grams / 100
  { calories := jround (f.calories_100g * scale)
    protein := (jround (f.protein_100g * scale * 10) : ℚ) / 10
    carbs := (jround (f.carbs_100g * scale * 10) : ℚ) / 10
    fats := (jround (f.fat_100g * scale * 10) : ℚ) / 10 }

/-- `distributeMealCalories` (`nutrition.js`): fixed percentage tables
keyed by meal count, default table for any other count, each share
rounded independently. -/
def distributeMealCalories (totalCalories : ℚ) (mealCount : Nat) : List Int :=
  let dist : List ℚ :=
    if mealCount = 3 then [0.30, 0.40, 0.30]
    else if mealCount = 4 then [0.25, 0.35, 0.10, 0.30]
    else if mealCount = 5 then [0.20, 0.30, 0.10, 0.30, 0.10]
    else [0.30, 0.40, 0.30]
  dist.map (fun pct => jround (totalCalories * pct))

/-- `inferDosha` (`ruleEngine.js`): fallback inference,
`profile?.dosha_result || 'Vata'`. -/
def inferDosha (p : Profile) : String := jsOrS p.dosha_result "Vata"

/-- `isContra` (`ruleEngine.js`): contraindication rules — diabetes
bans foods whose id starts with `i` (sweeteners), hypertension bans
salty-tasting foods. -/
def isContra (p : Profile) (f : Food) : Bool :=
  (p.medical_conditions.contains "diabetes" &&
    isPrefixB "i".data (lowerStr f.food_id).data) ||
  (p.medical_conditions.contains "hypertension" &&
    hasSubstrB "salty".data f.tastes.data)

/-- `getSeasonFromMonth` (`ruleEngine.js`): quarterly mapping of the
1-based month to a season name. -/
def getSeasonFromMonth (month : Int) : String :=
  if 3 ≤ month ∧ month ≤ 5 then "spring"
  else if 6 ≤ month ∧ month ≤ 8 then "monsoon"
  else if 9 ≤ month ∧ month ≤ 11 then "autumn"
  else "winter"

/-- The per-taste adjustment of `scoreDoshaComprehensive` (rasa
table); the two `includes` tests of each dosha branch add
independently. -/
def rasaDelta (userDosha rasa : String) : ℚ :=
  if userDosha = "Pitta" then
    (if ["pungent", "sour", "salty"].contains rasa then -1 else 0) +
    (if ["sweet", "bitter", "astringent"].contains rasa then 1 else 0)
  else if userDosha = "Kapha" then
    (if ["sweet", "sour", "salty"].contains rasa then -1 else 0) +
    (if ["pungent", "bitter", "astringent"].contains rasa then 1 else 0)
  else if userDosha = "Vata" then
    (if ["sweet", "sour", "salty"].contains rasa then 1 else 0) +
    (if ["pungent", "bitter", "astringent"].contains rasa then -1 else 0)
  else 0

/-- The per-quality adjustment of `scoreDoshaComprehensive` (guna
table); only Vata and Kapha have quality rules. -/
def gunaDelta (userDosha guna : String) : ℚ :=
  if userDosha = "Vata" then
    (if ["dry", "light"].contains guna then -1 else 0) +
    (if ["heavy", "unctuous"].contains guna then 1 else 0)
  else if userDosha = "Kapha" then
    (if ["heavy", "unctuous"].contains guna then -1 else 0) +
    (if ["light", "dry"].contains guna then 1 else 0)
  else 0

/-- The virya (energy) adjustment of `scoreDoshaComprehensive`,
guarded by the truthiness test `if (virya)`. -/
def viryaDelta (userDosha virya : String) : ℚ :=
  if virya ≠ "" then
    (if userDosha = "Pitta" ∧ virya = "heating" then -1 else 0) +
    (if userDosha = "Pitta" ∧ virya = "cooling" then 1 else 0) +
    (if userDosha = "Vata" ∧ virya = "cooling" then -0.5 else 0) +
    (if userDosha = "Kapha" ∧ virya = "cooling" then -0.5 else 0)
  else 0

/-- `food.tastes.split(',').map((s) => s.trim().toLowerCase())`.  A
missing `tastes` is modelled as `""`, whose split `[""]` contributes
nothing to the score, exactly like the JS `[]` for a non-string. -/
def rasaList (f : Food) : List String :=
  (splitCh ',' f.tastes.data).map (fun cs => ⟨(trimChars cs).map Char.toLower⟩)

/-- `food.qualities.split(',').map((s) => s.trim().toLowerCase())`,
with the same remark as for `rasaList`. -/
def gunaList (f : Food) : List String :=
  (splitCh ',' f.qualities.data).map (fun cs => ⟨(trimChars cs).map Char.toLower⟩)

/-- `scoreDoshaComprehensive` (`ruleEngine.js`): dosha-impact tag
bonus/penalty, then taste, quality and energy adjustments accumulated
in order. -/
def scoreDoshaComprehensive (userDosha : String) (f : Food) : ℚ :=
  let impact := jsOrS f.dosha_impact f.dosha_tags
  let s1 : ℚ :=
    if hasSubstrB "balancing".data (lowerStr impact).data ∨
       hasSubstrB "tridosha".data (lowerStr impact).data then 1 else 0
  let s2 : ℚ := if impact ≠ "" ∧ hasSubstrB userDosha.data impact.data then -0.5 else 0
  let s3 : ℚ := (rasaList f).foldl (fun acc r => acc + rasaDelta userDosha r) 0
  let s4 : ℚ := (gunaList f).foldl (fun acc g => acc + gunaDelta userDosha g) 0
  let s5 : ℚ := viryaDelta userDosha (lowerStr (jsOrS f.energy f.virya))
  s1 + s2 + s3 + s4 + s5

/-- `scoreSeasonMatch` (`ruleEngine.js`): `0` without a season tag,
`0.5` for `all` or a tag containing the current season. -/
def scoreSeasonMatch (season : String) (f : Food) : ℚ :=
  let s := lowerStr f.season
  if s = "" then 0
  else if hasSubstrB "all".data s.data then 0.5
  else if hasSubstrB season.data s.data then 0.5
  else 0

/-- `scoreNutrition` (`ruleEngine.js`): goal-driven protein/calorie
bonuses plus a general protein-quality bonus. -/
def scoreNutrition (p : Profile) (f : Food) : ℚ :=
  let goals := p.health_goals
  let protein := jsOrQ f.protein_100g (jsOrQ f.protein 0)
  let calories := jsOrQ f.calories_100g (jsOrQ f.calories 0)
  (if goals.contains "weight_loss" || goals.contains "Weight Loss" then
    (if protein ≥ 10 then 1 else 0) + (if calories < 150 then 0.5 else 0)
   else 0) +
  (if goals.contains "muscle_gain" || goals.contains "Weight Gain" then
    (if protein ≥ 15 then 1.5 else 0) + (if calories > 200 then 0.5 else 0)
   else 0) +
  (if protein ≥ 8 then 0.5 else 0)

/-- The meal-type preference allow-lists of `pickFoodForMeal`, with
`mealPrefs[mealType] || []` for an unknown meal type. -/
def mealPrefs (mealType : String) : List String :=
  if mealType = "breakfast" then ["grain", "fruit", "dairy", "nut"]
  else if mealType = "lunch" then ["grain", "legume", "vegetable", "protein"]
  else if mealType = "snack" then ["fruit", "nut", "dairy"]
  else if mealType = "dinner" then ["grain", "legume", "vegetable", "protein"]
  else []

/-- The item cap of `pickFoodForMeal`: 2 for a snack, 3 otherwise. -/
def mealMaxItems (mealType : String) : Nat := if mealType = "snack" then 2 else 3

/-- `calculatePortionSize` (`ruleEngine.js`): portion in grams from
the remaining calorie budget, clamped into `[50, round(base * 1.5)]`;
the calorie-density divisor is clamped below at `1`. -/
def calculatePortionSize (f : Food) (remainingCal : ℚ) (mealType : String) : Int :=
  let kPer100 := jsOrQ f.calories_100g (jsOrQ f.calories_per_100g 100)
  let base : ℚ :=
    if mealType = "breakfast" then 120
    else if mealType = "lunch" then 150
    else if mealType = "snack" then 80
    else if mealType = "dinner" then 130
    else 120
  let calculated := jround (remainingCal / max kPer100 1 * 100)
  max 50 (min calculated (jround (base * 1.5)))

/-- `inferFoodType` (`ruleEngine.js`): name/notes keywords, then the
legacy id-prefix convention, else `other`. -/
def inferFoodType (f : Food) : String :=
  let name := lowerStr f.name
  let notes := lowerStr f.notes
  if hasSubstrB "rice".data name.data || hasSubstrB "wheat".data name.data ||
     hasSubstrB "millet".data name.data then "grain"
  else if hasSubstrB "dal".data name.data || hasSubstrB "bean".data name.data ||
     hasSubstrB "lentil".data name.data then "legume"
  else if hasSubstrB "vegetable".data notes.data ||
     isPrefixB "D".data (upperStr f.food_id).data then "vegetable"
  else if hasSubstrB "fruit".data notes.data ||
     isPrefixB "E".data (upperStr f.food_id).data then "fruit"
  else if hasSubstrB "nut".data name.data || hasSubstrB "seed".data name.data then "nut"
  else if isPrefixB "K".data (upperStr f.food_id).data then "dairy"
  else if isPrefixB "L".data (upperStr f.food_id).data then "protein"
  else "other"

/-- `explainChoice` (`ruleEngine.js`): the rationale string — dosha
relation, taste list, capitalized energy, and the score to one
decimal, joined by the source's literal separator. -/
def explainChoice (f : Food) (dosha : String) (score : ℚ) : String :=
  let doshaTags := jsOrS f.dosha_impact f.dosha_tags
  let part1 :=
    if hasSubstrB "balancing".data (lowerStr doshaTags).data then "Tridoshic"
    else if hasSubstrB dosha.data doshaTags.data then "May aggravate " ++ dosha
    else "Balances " ++ dosha
  let tastes := jsOrS f.tastes f.rasa
  let part2 : List String := if tastes ≠ "" then ["Tastes: " ++ tastes] else []
  let energy := jsOrS f.energy f.virya
  let part3 : List String := if energy ≠ "" then [capFirst energy ++ " energy"] else []
  joinSep " â€¢ " ([part1] ++ part2 ++ part3 ++ ["Score: " ++ toFixed1 score])

/-- The per-term breakdown stored with each scored food (the `reasons`
object of `buildPlan`). -/
structure ScoreParts where
  sDosha : ℚ
  sSeason : ℚ
  sNut : ℚ
  season : String
deriving DecidableEq, Repr

/-- A scored catalog food (`{ f, score, reasons }` in `buildPlan`). -/
structure Scored where
  f : Food
  score : ℚ
  reasons : ScoreParts
deriving DecidableEq, Repr

/-- A chosen item of one meal, before reshaping into the plan's item
record (`{ f, grams, portion, macros, why }` in `pickFoodForMeal`). -/
structure PickItem where
  f : Food
  grams : Int
  portion : String
  macros : FoodMacros
  why : String
deriving DecidableEq, Repr

/-- The packer's loop state: chosen items, accumulated (rounded)
calories, and the `used` dedup set, kept as the insertion-ordered list
of keys. -/
structure PickState where
  items : List PickItem
  kcal : Int
  used : List String
deriving DecidableEq, Repr

/-- The dedup key `f.food_id || f.name` used by the packer. -/
def foodKey (f : Food) : String := jsOrS f.food_id f.name

/-- `Number(f.calories_100g || f.calories_per_100g || 100)`, the
calorie density both passes read. -/
def foodKPer100 (f : Food) : ℚ := jsOrQ f.calories_100g (jsOrQ f.calories_per_100g 100)

/-- The rounded calories `Math.round((kPer100 * grams) / 100)` a food
contributes when accepted in state `st`. -/
def itemK (mealType : String) (targetCal : ℚ) (s : Scored) (st : PickState) : Int :=
  jround (foodKPer100 s.f *
    (calculatePortionSize s.f (targetCal - (st.kcal : ℚ)) mealType : ℚ) / 100)

/-- The item record both passes push for an accepted food. -/
def packItem (mealType dosha : String) (targetCal : ℚ) (s : Scored) (st : PickState) : PickItem :=
  let grams := calculatePortionSize s.f (targetCal - (st.kcal : ℚ)) mealType
  { f := s.f
    grams := grams
    portion := toString grams ++ "g"
    macros := calculateFoodMacros s.f (grams : ℚ)
    why := explainChoice s.f dosha s.score }

/-- The state update shared by both passes: push the item, add its
calories, mark the food used. -/
def pushFood (mealType dosha : String) (targetCal : ℚ) (s : Scored) (st : PickState) : PickState :=
  { items := st.items ++ [packItem mealType dosha targetCal s st]
    kcal := st.kcal + itemK mealType targetCal s st
    used := st.used ++ [foodKey s.f] }

/-- Pass 1 of `pickFoodForMeal`: walk the sorted list; stop at the
item cap or `target * 1.1`; skip used foods and foods outside the
preference allow-list; accept a food only when the running total plus
its calories stays at or below `target * 1.15`. -/
def pickPassOne (targetCal : ℚ) (mealType dosha : String) (preferred : List String)
    (maxItems : Nat) : List Scored → PickState → PickState
  | [], st => st
  | s :: rest, st =>
    if st.items.length ≥ maxItems ∨ (st.kcal : ℚ) ≥ targetCal * 1.1 then st
    else if st.used.contains (foodKey s.f) then
      pickPassOne targetCal mealType dosha preferred maxItems rest st
    else if preferred ≠ [] ∧ ¬ preferred.contains (jsOrS s.f.type (inferFoodType s.f)) then
      pickPassOne targetCal mealType dosha preferred maxItems rest st
    else if ((st.kcal + itemK mealType targetCal s st : Int) : ℚ) ≤ targetCal * 1.15 then
      pickPassOne targetCal mealType dosha preferred maxItems rest
        (pushFood mealType dosha targetCal s st)
    else
      pickPassOne targetCal mealType dosha preferred maxItems rest st

/-- Pass 2 of `pickFoodForMeal` (top-up): walk the full list again
with the same cap and `target * 1.1` stop, skip used foods, add items
without the `1.15` ceiling check, and break once the total reaches
`target * 0.9`. -/
def pickPassTwo (targetCal : ℚ) (mealType dosha : String)
    (maxItems : Nat) : List Scored → PickState → PickState
  | [], st => st
  | s :: rest, st =>
    if st.items.length ≥ maxItems ∨ (st.kcal : ℚ) ≥ targetCal * 1.1 then st
    else if st.used.contains (foodKey s.f) then
      pickPassTwo targetCal mealType dosha maxItems rest st
    else
      let st2 := pushFood mealType dosha targetCal s st
      if (st2.kcal : ℚ) ≥ targetCal * 0.9 then st2
      else pickPassTwo targetCal mealType dosha maxItems rest st2

/-- `pickFoodForMeal` (`ruleEngine.js`): pass 1, then pass 2 exactly
when pass 1 produced no items or less than `target * 0.7` calories. -/
def pickFoodForMeal (scored : List Scored) (targetCal : ℚ) (mealType dosha : String) : PickState :=
  let maxItems := mealMaxItems mealType
  let st1 := pickPassOne targetCal mealType dosha (mealPrefs mealType) maxItems scored
    { items := [], kcal := 0, used := [] }
  if st1.items = [] ∨ (st1.kcal : ℚ) < targetCal * 0.7 then
    pickPassTwo targetCal mealType dosha maxItems scored st1
  else st1

/-- Stable descending insertion for the score sort: an earlier element
stays ahead of any later element with the same score, matching the JS
stable `sort((a, b) => b.score - a.score)`. -/
def insertScoredDesc (x : Scored) : List Scored → List Scored
  | [] => [x]
  | y :: ys => if x.score ≥ y.score then x :: y :: ys else y :: insertScoredDesc x ys

/-- The stable descending score sort used by `buildPlan`. -/
def sortByScoreDesc (l : List Scored) : List Scored := l.foldr insertScoredDesc []

/-- `profile.preferences?.disliked || []`. -/
def prefsDisliked (p : Profile) : List String :=
  match p.preferences with
  | some pr => pr.disliked
  | none => []

/-- The `banned` set of `buildPlan`: lower-cased disliked names. -/
def bannedSet (p : Profile) : List String := (prefsDisliked p).map lowerStr

/-- The `allergies` set of `buildPlan`: lower-cased allergy names. -/
def allergySet (p : Profile) : List String := p.allergies.map lowerStr

/-- Step 1 of `buildPlan`: keep the foods whose lower-cased name is in
neither the disliked nor the allergy set and that are not
contraindicated. -/
def allowedFoods (p : Profile) (foods : List Food) : List Food :=
  foods.filter (fun f =>
    !(bannedSet p).contains (lowerStr f.name) &&
    !(allergySet p).contains (lowerStr f.name) &&
    !isContra p f)

/-- The preference penalty of the scoring step (`W.prefPenalty = 2`
when the lower-cased name is in the disliked set). -/
def prefPenalty (p : Profile) (f : Food) : ℚ :=
  if (bannedSet p).contains (lowerStr f.name) then 2 else 0

/-- One scored food of `buildPlan` step 2, with the weights
`W = { dosha: 3, seasonal: 1.0, nutrition: 1.0 }`. -/
def scoreFood (p : Profile) (dosha season : String) (f : Food) : Scored :=
  let sDosha := scoreDoshaComprehensive dosha f
  let sSeason := scoreSeasonMatch season f
  let sNut := scoreNutrition p f
  { f := f
    score := sDosha * 3 + sSeason * 1.0 + sNut * 1.0 - prefPenalty p f
    reasons := { sDosha := sDosha, sSeason := sSeason, sNut := sNut, season := season } }

/-- Steps 1-2 of `buildPlan`: filter, score, and sort descending. -/
def scoredFoods (p : Profile) (dosha season : String) (foods : List Food) : List Scored :=
  sortByScoreDesc ((allowedFoods p foods).map (scoreFood p dosha season))

/-- One item of a meal slot in the produced plan. -/
structure MealItem where
  food_id : String
  name : String
  portion : String
  grams : Int
  macros : FoodMacros
  why : String
deriving DecidableEq, Repr

/-- One meal slot of the produced plan. -/
structure Meal where
  meal_type : String
  items : List MealItem
  total_calories : Int
  explanations : List String
deriving DecidableEq, Repr

/-- The plan returned by `buildPlan`. -/
structure Plan where
  season : String
  dosha_target : String
  target_calories : ℚ
  total_calories : Int
  macro_targets : MacroTargets
  meals : List Meal
  explanation_logs : List String
deriving DecidableEq, Repr

/-- The body of `buildPlan`'s `forEach` over meal types: pack one slot
and reshape the picked items into the plan's item records; the slot
total re-sums the rounded item calories (`it.macros?.calories || 0`,
where `|| 0` is the identity on the always-present integer). -/
def buildMealSlot (scored : List Scored) (dosha mealType : String) (targetMealCal : Int) : Meal :=
  let pick := pickFoodForMeal scored (targetMealCal : ℚ) mealType dosha
  let items := pick.items.map (fun it =>
    ({ food_id := jsOrS it.f.food_id (jsOrS it.f.id it.f.oid)
       name := it.f.name
       portion := it.portion
       grams := it.grams
       macros := it.macros
       why := it.why } : MealItem))
  { meal_type := mealType
    items := items
    total_calories := items.foldl (fun sum it => sum + it.macros.calories) 0
    explanations := (items.map (fun it => it.why)).filter (fun w => w != "") }

/-- One `forEach` iteration of `buildPlan`: append the packed meal and
accumulate `totalCals`. -/
def planMealsStep (scored : List Scored) (dosha : String)
    (acc : List Meal × Int) (slot : String × Int) : List Meal × Int :=
  let m := buildMealSlot scored dosha slot.1 slot.2
  (acc.1 ++ [m], acc.2 + m.total_calories)

/-- `buildPlan` (`ruleEngine.js`): resolve dosha, season and target,
filter and score the catalog, split the target over the meal slate
(4 slots for a daily plan, 3 otherwise), pack every slot and aggregate
the totals.  `month` is `new Date().getMonth() + 1` and `now` is
`Date.now()`, the two ambient-clock reads made explicit. -/
def buildPlan (profile : Profile) (foods : List Food) (plan_type : String)
    (targetCalories : Option ℚ) (month now : Int) : Plan :=
  let dosha := jsOrS profile.dosha_result (inferDosha profile)
  let season := getSeasonFromMonth month
  let target : ℚ :=
    match targetCalories with
    | some t => t
    | none => (calculateTargetCalories profile now : ℚ)
  let scored := scoredFoods profile dosha season foods
  let mealTypes :=
    if plan_type = "daily" then ["breakfast", "lunch", "snack", "dinner"]
    else ["breakfast", "lunch", "dinner"]
  let mealCalories := distributeMealCalories target mealTypes.length
  let acc := (mealTypes.zip mealCalories).foldl (planMealsStep scored dosha) ([], 0)
  { season := season
    dosha_target := dosha
    target_calories := target
    total_calories := acc.2
    macro_targets := getMacroTargets profile
    meals := acc.1
    explanation_logs := [] }

/-- The goal-list rewrite the alias claim quantifies over: replace
every occurrence of goal spelling `a` by spelling `b`. -/
def replaceGoal (a b : String) (l : List String) : List String :=
  l.map (fun g => if g = a then b else g)

/-! ## General lemmas about the embedding -/

/-- `jround` is monotone. -/
theorem jround_mono {x y : ℚ} (h : x ≤ y) : jround x ≤ jround y :=
  Int.floor_le_floor (by linarith)

/-- Every activity factor is at least the sedentary `1.2`. -/
theorem activityFactor_ge (lvl : String) : (1.2 : ℚ) ≤ activityFactor lvl := by
  unfold activityFactor
  split_ifs <;> norm_num

/-- Unfolding one `forEach` run of the plan assembler: the fold
appends exactly one meal per slot and accumulates exactly the slots'
`total_calories`. -/
theorem planMealsFold (scored : List Scored) (dosha : String) (l : List (String × Int))
    (ms : List Meal) (t : Int) :
    l.foldl (planMealsStep scored dosha) (ms, t) =
      (ms ++ l.map (fun slot => buildMealSlot scored dosha slot.1 slot.2),
       t + (l.map (fun slot => (buildMealSlot scored dosha slot.1 slot.2).total_calories)).sum) := by
  induction l generalizing ms t with
  | nil => simp
  | cons a l ih => simp [planMealsStep, ih, add_assoc]

/-! ## C9: macro percentages always sum to 100 -/

/-- C9: for every profile — any goal list, any dosha value including
dual or unrecognized ones — the three percentages returned by
`getMacroTargets` sum to exactly 100. -/
theorem getMacroTargets_sums_to_100 (p : Profile) :
    (getMacroTargets p).protein + (getMacroTargets p).carbs + (getMacroTargets p).fats = 100 := by
  unfold getMacroTargets
  dsimp only
  split_ifs <;> norm_num

/-! ## C10: portion sizes are clamped integers -/

/-- C10: for every food, remaining-calorie value and meal-type label,
`calculatePortionSize` returns an integer (its codomain is `Int`) in
`[50, round(base * 1.5)]` with base 120/150/80/130 for
breakfast/lunch/snack/dinner and 120 otherwise, and the
calorie-density divisor is clamped below at 1, so a zero, negative or
missing `calories_100g` never divides by zero. -/
theorem calculatePortionSize_bounds (f : Food) (remainingCal : ℚ) (mealType : String) :
    1 ≤ max (jsOrQ f.calories_100g (jsOrQ f.calories_per_100g 100)) 1 ∧
    50 ≤ calculatePortionSize f remainingCal mealType ∧
    calculatePortionSize f remainingCal mealType ≤
      jround ((if mealType = "breakfast" then (120 : ℚ)
        else if mealType = "lunch" then 150
        else if mealType = "snack" then 80
        else if mealType = "dinner" then 130
        else 120) * 1.5) := by
  refine ⟨le_max_right _ _, ?_, ?_⟩
  · exact le_max_left _ _
  · unfold calculatePortionSize
    apply max_le
    · split_ifs <;> norm_num [jround]
    · exact min_le_right _ _

/-! ## C2: slot count and exact total aggregation -/

/-- C2: for every profile and catalog, `buildPlan` produces exactly 4
meal slots when `plan_type` is `daily` and exactly 3 otherwise, and
the plan's `total_calories` equals exactly the sum of the
`total_calories` of its meal slots.  (The claim assumes a non-empty
catalog; the property in fact holds for every catalog.) -/
theorem buildPlan_slots_and_total (p : Profile) (foods : List Food) (plan_type : String)
    (tc : Option ℚ) (month now : Int) :
    (buildPlan p foods plan_type tc month now).meals.length =
      (if plan_type = "daily" then 4 else 3) ∧
    (buildPlan p foods plan_type tc month now).total_calories =
      ((buildPlan p foods plan_type tc month now).meals.map (fun m => m.total_calories)).sum := by
  unfold buildPlan
  dsimp only
  rw [planMealsFold]
  constructor
  · by_cases h : plan_type = "daily" <;>
      simp [h, distributeMealCalories, List.zip]
  · simp only [List.nil_append, List.map_map, Function.comp_def, zero_add]

/-! ## C5: positivity of the calorie target -/

/-- A profile the engine accepts whose BMR is negative: female, zero
height and weight, age 100. -/
def negativeBmrProfile : Profile :=
  { sex := some "F", height_cm := some 0, weight_kg := some 0, age_years := some 100 }

/-- C5 counterexample: `calculateTargetCalories` is not strictly
positive for every profile — on `negativeBmrProfile` (BMR
`-661`, TDEE `round(-661 * 1.55) = -1025`, no goals) it returns the
negative value `-1025`. -/
theorem calculateTargetCalories_negative_cex :
    calculateTargetCalories negativeBmrProfile 0 < 0 := by
  norm_num +decide [calculateTargetCalories, calculateTDEE, calculateBMR, activityFactor,
    negativeBmrProfile, jround, Option.getD]

/-- C5 (amended): for every profile and clock whose BMR is at least 1,
`calculateTargetCalories` is strictly positive.  (The unrestricted
claim fails: the engine never guards the Mifflin-St Jeor term against
degenerate height/weight/age, see the counterexample.) -/
theorem calculateTargetCalories_pos (p : Profile) (now : Int)
    (h : 1 ≤ calculateBMR p now) :
    0 < calculateTargetCalories p now := by
  have hf := activityFactor_ge (p.activity_level.getD "moderate")
  have hb0 : (0 : ℚ) ≤ calculateBMR p now := le_trans (by norm_num) h
  have hmul : (1.2 : ℚ) ≤ calculateBMR p now * activityFactor (p.activity_level.getD "moderate") := by
    calc (1.2 : ℚ) = 1 * 1.2 := by norm_num
    _ ≤ calculateBMR p now * activityFactor (p.activity_level.getD "moderate") :=
        mul_le_mul h hf (by norm_num) hb0
  have htdee : (1 : Int) ≤ calculateTDEE p now := by
    calc (1 : Int) = jround 1.2 := by norm_num [jround]
    _ ≤ calculateTDEE p now := jround_mono hmul
  have htdq : (1 : ℚ) ≤ (calculateTDEE p now : ℚ) := by exact_mod_cast htdee
  unfold calculateTargetCalories
  dsimp only
  split_ifs
  · calc (0 : Int) < 1 := one_pos
    _ = jround 0.8 := by norm_num [jround]
    _ ≤ jround ((calculateTDEE p now : ℚ) * 0.8) := jround_mono (by nlinarith)
  · calc (0 : Int) < 1 := one_pos
    _ = jround 1.15 := by norm_num [jround]
    _ ≤ jround ((calculateTDEE p now : ℚ) * 1.15) := jround_mono (by nlinarith)
  · calc (0 : Int) < 1 := one_pos
    _ = jround 1.1 := by norm_num [jround]
    _ ≤ jround ((calculateTDEE p now : ℚ) * 1.1) := jround_mono (by nlinarith)
  · exact lt_of_lt_of_le one_pos htdee

/-- Witness for the amended C5 at the all-defaults profile (BMR
`1642.5`). -/
theorem calculateTargetCalories_pos_witness :
    0 < calculateTargetCalories {} 0 :=
  calculateTargetCalories_pos {} 0
    (by norm_num [calculateBMR, Option.getD])

/-! ## C6: goal-spelling aliases -/

/-- After `replaceGoal a b`, the source spelling `a` is gone. -/
theorem replaceGoal_no_first {a b : String} (hab : a ≠ b) (l : List String) :
    a ∉ replaceGoal a b l := by
  unfold replaceGoal
  intro hmem
  rcases List.mem_map.mp hmem with ⟨g, _, hval⟩
  by_cases hg : g = a
  · rw [if_pos hg] at hval
    exact hab hval.symm
  · rw [if_neg hg] at hval
    exact hg hval

/-- After `replaceGoal a b`, the target spelling `b` is present iff
either spelling was present before. -/
theorem replaceGoal_second_iff (a b : String) (l : List String) :
    b ∈ replaceGoal a b l ↔ (a ∈ l ∨ b ∈ l) := by
  unfold replaceGoal
  constructor
  · intro hmem
    rcases List.mem_map.mp hmem with ⟨g, hgl, hval⟩
    by_cases hg : g = a
    · exact Or.inl (hg ▸ hgl)
    · simp [hg] at hval
      exact Or.inr (hval ▸ hgl)
  · intro h
    rcases h with h | h
    · exact List.mem_map.mpr ⟨a, h, by simp⟩
    · exact List.mem_map.mpr ⟨b, h, by by_cases hb : b = a <;> simp [hb]⟩

/-- `replaceGoal a b` leaves membership of any third spelling
unchanged. -/
theorem replaceGoal_other_iff {a b c : String} (hca : c ≠ a) (hcb : c ≠ b) (l : List String) :
    c ∈ replaceGoal a b l ↔ c ∈ l := by
  unfold replaceGoal
  constructor
  · intro hmem
    rcases List.mem_map.mp hmem with ⟨g, hgl, hval⟩
    by_cases hg : g = a
    · simp [hg] at hval
      exact absurd hval.symm hcb
    · simp [hg] at hval
      exact hval ▸ hgl
  · intro h
    exact List.mem_map.mpr ⟨c, h, by simp [fun hc => hca hc]⟩

/-- Bridge from the `Bool` membership test the engine uses to
propositional membership. -/
theorem contains_eq_decide (l : List String) (a : String) : l.contains a = decide (a ∈ l) := by
  simp

/-- Bool-level evaluation of the three membership tests after a goal
respelling. -/
theorem replaceGoal_contains_eval (a b : String) (hab : a ≠ b) (l : List String) :
    (replaceGoal a b l).contains a = false ∧
    (replaceGoal a b l).contains b = (l.contains a || l.contains b) ∧
    ∀ c, c ≠ a → c ≠ b → (replaceGoal a b l).contains c = l.contains c := by
  refine ⟨?_, ?_, ?_⟩
  · rw [contains_eq_decide]
    exact decide_eq_false (replaceGoal_no_first hab l)
  · by_cases h1 : a ∈ l <;> by_cases h2 : b ∈ l <;>
      simp [contains_eq_decide, replaceGoal_second_iff, h1, h2]
  · intro c hca hcb
    rw [contains_eq_decide, contains_eq_decide]
    exact decide_eq_decide.mpr (replaceGoal_other_iff hca hcb l)

/-- The profile of the C6 counterexample: the single goal
`muscle_gain`, everything else defaulted. -/
def muscleGainProfile : Profile := { health_goals := ["muscle_gain"] }

/-- C6 counterexample: replacing `muscle_gain` by `Muscle Gain` in the
goal list changes the returned target calories (2546 instead of 2801
on the defaults profile): the title-case spelling of the muscle-gain
goal is not recognized by `calculateTargetCalories`. -/
theorem muscleGain_alias_cex :
    calculateTargetCalories
        { muscleGainProfile with
          health_goals := replaceGoal "muscle_gain" "Muscle Gain" muscleGainProfile.health_goals } 0 ≠
      calculateTargetCalories muscleGainProfile 0 := by
  norm_num +decide [calculateTargetCalories, calculateTDEE, calculateBMR, activityFactor,
    muscleGainProfile, replaceGoal, jround, Option.getD]

/-- C6 (amended): the underscore and title-case spellings are
equivalent aliases for `weight_loss` and `weight_gain` — replacing one
spelling by the other leaves the returned target calories unchanged —
but not for `muscle_gain`, whose title-case spelling the code does not
check (see the counterexample). -/
theorem weight_goal_alias_equiv (p : Profile) (now : Int) :
    calculateTargetCalories
        { p with health_goals := replaceGoal "weight_loss" "Weight Loss" p.health_goals } now =
      calculateTargetCalories p now ∧
    calculateTargetCalories
        { p with health_goals := replaceGoal "weight_gain" "Weight Gain" p.health_goals } now =
      calculateTargetCalories p now := by
  constructor
  · obtain ⟨hA, hB, hC⟩ :=
      replaceGoal_contains_eval "weight_loss" "Weight Loss" (by decide) p.health_goals
    unfold calculateTargetCalories
    dsimp only
    rw [hA, hB, hC "weight_gain" (by decide) (by decide),
      hC "Weight Gain" (by decide) (by decide), hC "muscle_gain" (by decide) (by decide),
      Bool.false_or]
    rfl
  · obtain ⟨hA, hB, hC⟩ :=
      replaceGoal_contains_eval "weight_gain" "Weight Gain" (by decide) p.health_goals
    unfold calculateTargetCalories
    dsimp only
    rw [hA, hB, hC "weight_loss" (by decide) (by decide),
      hC "Weight Loss" (by decide) (by decide), hC "muscle_gain" (by decide) (by decide),
      Bool.false_or]
    rfl

/-! ## C4: purity/determinism of `buildPlan` -/

/-- `calculateBMR` reads the clock only to derive the age from `dob`:
with an explicit age or no date of birth it is clock-independent. -/
theorem calculateBMR_now_invariant (p : Profile) (now1 now2 : Int)
    (h : p.age_years ≠ none ∨ p.dob = none) :
    calculateBMR p now1 = calculateBMR p now2 := by
  unfold calculateBMR
  rcases h with h | h
  · cases hag : p.age_years with
    | some a => simp [hag]
    | none => exact absurd hag h
  · cases hag : p.age_years with
    | some a => simp [hag]
    | none => simp [hag, h]

/-- Clock-invariance of `calculateTargetCalories` under the same
condition. -/
theorem calculateTargetCalories_now_invariant (p : Profile) (now1 now2 : Int)
    (h : p.age_years ≠ none ∨ p.dob = none) :
    calculateTargetCalories p now1 = calculateTargetCalories p now2 := by
  unfold calculateTargetCalories calculateTDEE
  rw [calculateBMR_now_invariant p now1 now2 h]

/-- C4 counterexample: `buildPlan` is not a pure function of
`(profile, catalog, plan_type, targetCalories)` — with all four inputs
fixed, running it in January and in April (the two ambient-clock
reads `month`/`now` differ) yields different plans, already in the
`season` field. -/
theorem buildPlan_clock_dependent_cex :
    buildPlan {} [] "daily" (some 100) 1 0 ≠ buildPlan {} [] "daily" (some 100) 4 0 := by
  intro h
  have hc := congrArg Plan.season h
  simp [buildPlan, getSeasonFromMonth] at hc

/-- C4 (amended): `buildPlan` depends on the ambient clock only
through the month-to-season mapping and — when the calorie target must
be derived from a date of birth — the `Date.now()` read inside the BMR
age computation.  Two invocations with identical
`(profile, catalog, plan_type, targetCalories)` whose clock readings
yield the same season produce identical plans, provided the target is
supplied explicitly, or the profile carries an explicit age, or it
carries no date of birth. -/
theorem buildPlan_deterministic_given_season (p : Profile) (foods : List Food)
    (plan_type : String) (tc : Option ℚ) (m1 now1 m2 now2 : Int)
    (hs : getSeasonFromMonth m1 = getSeasonFromMonth m2)
    (h : tc ≠ none ∨ p.age_years ≠ none ∨ p.dob = none) :
    buildPlan p foods plan_type tc m1 now1 = buildPlan p foods plan_type tc m2 now2 := by
  cases htc : tc with
  | some t =>
    unfold buildPlan
    dsimp only
    rw [hs]
  | none =>
    have hnow : p.age_years ≠ none ∨ p.dob = none := by
      rcases h with h | h
      · exact absurd htc h
      · exact h
    unfold buildPlan
    dsimp only
    rw [hs, calculateTargetCalories_now_invariant p now1 now2 hnow]

/-- Witness for the amended C4: January and December both map to
winter, so with an explicit target the two runs agree exactly. -/
theorem buildPlan_deterministic_witness :
    buildPlan {} [] "daily" (some 100) 1 5 = buildPlan {} [] "daily" (some 100) 12 99 :=
  buildPlan_deterministic_given_season {} [] "daily" (some 100) 1 5 12 99
    (by decide) (Or.inl (by decide))

/-! ## C7: the dosha-impact term -/

/-- A food tagged exactly `Tridoshic`. -/
def tridoshicFood : Food := { dosha_impact := "Tridoshic" }

/-- C7 counterexample: the tag string `"Tridoshic"` does contain
`"Tridoshic"` case-insensitively, yet the dosha score of such a food
is `0`, not the claimed `+1`: the code's pattern is
`/balancing|tridosha/i`, and `"tridoshic"` does not contain the
substring `"tridosha"` (the final `a` is missing). -/
theorem tridoshic_tag_cex :
    hasSubstrB (lowerStr "Tridoshic").data (lowerStr tridoshicFood.dosha_impact).data = true ∧
    scoreDoshaComprehensive "Vata" tridoshicFood = 0 := by
  constructor
  · decide
  · unfold scoreDoshaComprehensive
    dsimp only
    rw [if_neg (by decide), if_neg (by decide)]
    have hr : rasaList tridoshicFood = [""] := by decide
    have hg : gunaList tridoshicFood = [""] := by decide
    rw [hr, hg]
    norm_num +decide [rasaDelta, gunaDelta, viryaDelta, jsOrS, lowerStr, tridoshicFood]

/-- C7 (amended): the dosha-impact contribution is additive on top of
the taste/quality/energy terms and equals `+1` exactly when the tag
string contains `"balancing"` or `"tridosha"` case-insensitively (the
literal word `"Tridoshic"` does not match, lacking the final `a`),
plus `-0.5` exactly when the tag string is non-empty and contains the
user's primary dosha literal case-sensitively. -/
theorem scoreDosha_impact_term (d : String) (f : Food) :
    scoreDoshaComprehensive d f =
      (if hasSubstrB "balancing".data (lowerStr (jsOrS f.dosha_impact f.dosha_tags)).data ∨
          hasSubstrB "tridosha".data (lowerStr (jsOrS f.dosha_impact f.dosha_tags)).data
        then (1 : ℚ) else 0) +
      (if jsOrS f.dosha_impact f.dosha_tags ≠ "" ∧
          hasSubstrB d.data (jsOrS f.dosha_impact f.dosha_tags).data
        then (-0.5 : ℚ) else 0) +
      scoreDoshaComprehensive d { f with dosha_impact := "", dosha_tags := "" } := by
  have hclear : scoreDoshaComprehensive d { f with dosha_impact := "", dosha_tags := "" } =
      (rasaList f).foldl (fun acc r => acc + rasaDelta d r) 0 +
      (gunaList f).foldl (fun acc g => acc + gunaDelta d g) 0 +
      viryaDelta d (lowerStr (jsOrS f.energy f.virya)) := by
    unfold scoreDoshaComprehensive
    dsimp only
    rw [if_neg (by decide), if_neg (fun h => h.1 rfl)]
    have hr : rasaList { f with dosha_impact := "", dosha_tags := "" } = rasaList f := rfl
    have hg : gunaList { f with dosha_impact := "", dosha_tags := "" } = gunaList f := rfl
    rw [hr, hg]
    ring
  rw [hclear]
  unfold scoreDoshaComprehensive
  dsimp only
  ring

/-! ## C1: disliked foods and the candidate set -/

/-- A profile that dislikes `rice` and has no allergies and no medical
conditions. -/
def dislikedRiceProfile : Profile := { preferences := some { disliked := ["rice"] } }

/-- A plain rice food. -/
def riceFood : Food := { food_id := "f_016", name := "Rice", type := "grain", calories_100g := 100 }

/-- C1 counterexample: a food whose name case-insensitively matches a
disliked entry IS removed from the candidate set before scoring, even
though it matches no allergy and no contraindication — the filter in
`buildPlan` treats the disliked set exactly like the allergy set, and
the claimed 2-point penalty can therefore never apply. -/
theorem disliked_food_removed_cex :
    allowedFoods dislikedRiceProfile [riceFood] = [] ∧
    dislikedRiceProfile.allergies = [] ∧
    isContra dislikedRiceProfile riceFood = false := by
  refine ⟨by decide, rfl, by decide⟩

/-- C1 (amended): a food whose name case-insensitively matches a
disliked entry is excluded from the candidate set before scoring,
exactly like an allergy match; consequently every food that reaches
the scoring step carries a zero preference penalty (the `-2` branch is
dead code). -/
theorem disliked_foods_excluded (p : Profile) (foods : List Food) (f : Food)
    (h : f ∈ allowedFoods p foods) :
    (bannedSet p).contains (lowerStr f.name) = false ∧ prefPenalty p f = 0 := by
  unfold allowedFoods at h
  have hp := (List.mem_filter.mp h).2
  simp only [Bool.and_eq_true, Bool.not_eq_true'] at hp
  obtain ⟨⟨hb, -⟩, -⟩ := hp
  refine ⟨hb, ?_⟩
  unfold prefPenalty
  rw [hb]
  simp

/-- Witness for the amended C1: with no disliked entries, `riceFood`
reaches the scoring step and indeed carries a zero penalty. -/
theorem disliked_foods_excluded_witness :
    (bannedSet ({} : Profile)).contains (lowerStr riceFood.name) = false ∧
      prefPenalty {} riceFood = 0 :=
  disliked_foods_excluded {} [riceFood] riceFood
    (List.mem_filter.mpr ⟨List.mem_singleton_self _, by decide⟩)

/-! ## Membership chains through the packer, toward C3 -/

/-- Insertion keeps only the inserted element and the old ones. -/
theorem mem_insertScoredDesc {x y : Scored} {l : List Scored}
    (h : x ∈ insertScoredDesc y l) : x = y ∨ x ∈ l := by
  induction l with
  | nil => simpa [insertScoredDesc] using h
  | cons z zs ih =>
    unfold insertScoredDesc at h
    split_ifs at h
    · exact (List.mem_cons.mp h).imp_right id
    · rcases List.mem_cons.mp h with h | h
      · exact Or.inr (List.mem_cons.mpr (Or.inl h))
      · exact (ih h).imp_right (fun hz => List.mem_cons.mpr (Or.inr hz))

/-- Sorting introduces no new elements. -/
theorem mem_sortByScoreDesc {x : Scored} {l : List Scored}
    (h : x ∈ sortByScoreDesc l) : x ∈ l := by
  induction l with
  | nil => simp [sortByScoreDesc] at h
  | cons a as ih =>
    have h1 : x ∈ insertScoredDesc a (sortByScoreDesc as) := h
    rcases mem_insertScoredDesc h1 with h2 | h2
    · exact List.mem_cons.mpr (Or.inl h2)
    · exact List.mem_cons.mpr (Or.inr (ih h2))

/-- Every item produced by pass 1 was in the incoming state or wraps a
food of the walked list. -/
theorem pickPassOne_items_sub (t : ℚ) (mt d : String) (pref : List String) (maxI : Nat) :
    ∀ (l : List Scored) (st : PickState) (x : PickItem),
      x ∈ (pickPassOne t mt d pref maxI l st).items →
      x ∈ st.items ∨ ∃ s ∈ l, x.f = s.f := by
  intro l
  induction l with
  | nil =>
    intro st x hx
    exact Or.inl (by simpa [pickPassOne] using hx)
  | cons s rest ih =>
    intro st x hx
    unfold pickPassOne at hx
    split_ifs at hx
    · exact Or.inl hx
    · rcases ih st x hx with h | ⟨s2, hs2, he⟩
      · exact Or.inl h
      · exact Or.inr ⟨s2, List.mem_cons.mpr (Or.inr hs2), he⟩
    · rcases ih st x hx with h | ⟨s2, hs2, he⟩
      · exact Or.inl h
      · exact Or.inr ⟨s2, List.mem_cons.mpr (Or.inr hs2), he⟩
    · rcases ih (pushFood mt d t s st) x hx with h | ⟨s2, hs2, he⟩
      · rcases List.mem_append.mp h with h1 | h1
        · exact Or.inl h1
        · have hx1 : x = packItem mt d t s st := by simpa using h1
          exact Or.inr ⟨s, List.mem_cons.mpr (Or.inl rfl), by rw [hx1]; rfl⟩
      · exact Or.inr ⟨s2, List.mem_cons.mpr (Or.inr hs2), he⟩
    · rcases ih st x hx with h | ⟨s2, hs2, he⟩
      · exact Or.inl h
      · exact Or.inr ⟨s2, List.mem_cons.mpr (Or.inr hs2), he⟩

/-- Every item produced by pass 2 was in the incoming state or wraps a
food of the walked list. -/
theorem pickPassTwo_items_sub (t : ℚ) (mt d : String) (maxI : Nat) :
    ∀ (l : List Scored) (st : PickState) (x : PickItem),
      x ∈ (pickPassTwo t mt d maxI l st).items →
      x ∈ st.items ∨ ∃ s ∈ l, x.f = s.f := by
  intro l
  induction l with
  | nil =>
    intro st x hx
    exact Or.inl (by simpa [pickPassTwo] using hx)
  | cons s rest ih =>
    intro st x hx
    unfold pickPassTwo at hx
    dsimp only at hx
    split_ifs at hx
    · exact Or.inl hx
    · rcases ih st x hx with h | ⟨s2, hs2, he⟩
      · exact Or.inl h
      · exact Or.inr ⟨s2, List.mem_cons.mpr (Or.inr hs2), he⟩
    · rcases List.mem_append.mp hx with h1 | h1
      · exact Or.inl h1
      · have hx1 : x = packItem mt d t s st := by simpa using h1
        exact Or.inr ⟨s, List.mem_cons.mpr (Or.inl rfl), by rw [hx1]; rfl⟩
    · rcases ih (pushFood mt d t s st) x hx with h | ⟨s2, hs2, he⟩
      · rcases List.mem_append.mp h with h1 | h1
        · exact Or.inl h1
        · have hx1 : x = packItem mt d t s st := by simpa using h1
          exact Or.inr ⟨s, List.mem_cons.mpr (Or.inl rfl), by rw [hx1]; rfl⟩
      · exact Or.inr ⟨s2, List.mem_cons.mpr (Or.inr hs2), he⟩

/-- Every item chosen for a meal wraps a food of the scored list. -/
theorem pickFoodForMeal_items_sub (scored : List Scored) (t : ℚ) (mt d : String)
    (x : PickItem) (hx : x ∈ (pickFoodForMeal scored t mt d).items) :
    ∃ s ∈ scored, x.f = s.f := by
  unfold pickFoodForMeal at hx
  dsimp only at hx
  split_ifs at hx
  · rcases pickPassTwo_items_sub t mt d (mealMaxItems mt) scored _ x hx with h | h
    · rcases pickPassOne_items_sub t mt d (mealPrefs mt) (mealMaxItems mt) scored
        { items := [], kcal := 0, used := [] } x h with h1 | h1
      · simp at h1
      · exact h1
    · exact h
  · rcases pickPassOne_items_sub t mt d (mealPrefs mt) (mealMaxItems mt) scored
      { items := [], kcal := 0, used := [] } x hx with h1 | h1
    · simp at h1
    · exact h1

/-- Every scored food is a filtered (allowed) catalog food. -/
theorem scoredFoods_sub (p : Profile) (dosha season : String) (foods : List Food)
    (s : Scored) (hs : s ∈ scoredFoods p dosha season foods) :
    s.f ∈ allowedFoods p foods := by
  unfold scoredFoods at hs
  have h1 := mem_sortByScoreDesc hs
  rcases List.mem_map.mp h1 with ⟨f0, hf0, he⟩
  have : s.f = f0 := by rw [← he]; rfl
  exact this ▸ hf0

/-- Foods that survive the filter match no allergy entry. -/
theorem allowedFoods_no_allergen (p : Profile) (foods : List Food) (f : Food)
    (h : f ∈ allowedFoods p foods) :
    (allergySet p).contains (lowerStr f.name) = false := by
  unfold allowedFoods at h
  have hp := (List.mem_filter.mp h).2
  simp only [Bool.and_eq_true, Bool.not_eq_true'] at hp
  exact hp.1.2

/-! ## C3: allergy matches never appear in a plan -/

/-- C3: for every profile, catalog, plan type, explicit target and
clock, no item of any meal slot of the plan produced by `buildPlan`
has a name that case-insensitively matches an entry of the profile's
allergy list. -/
theorem buildPlan_no_allergens (p : Profile) (foods : List Food) (plan_type : String)
    (tc : Option ℚ) (month now : Int) :
    ((buildPlan p foods plan_type tc month now).meals.all
      (fun m => m.items.all
        (fun it => !(allergySet p).contains (lowerStr it.name)))) = true := by
  rw [List.all_eq_true]
  intro m hm
  rw [List.all_eq_true]
  intro it hit
  unfold buildPlan at hm
  dsimp only at hm
  rw [planMealsFold] at hm
  dsimp only at hm
  rw [List.nil_append] at hm
  rcases List.mem_map.mp hm with ⟨slot, -, hms⟩
  rw [← hms] at hit
  unfold buildMealSlot at hit
  dsimp only at hit
  rcases List.mem_map.mp hit with ⟨x, hx, hxit⟩
  rcases pickFoodForMeal_items_sub _ _ _ _ x hx with ⟨s, hs, hsf⟩
  have hf := scoredFoods_sub _ _ _ _ s hs
  have hna := allowedFoods_no_allergen _ _ _ hf
  have hname : it.name = x.f.name := by rw [← hxit]
  rw [hname, hsf, hna]
  rfl

/-! ## C8: the two-pass greedy packer -/

/-- C8: operational behaviour of the meal packer.  (i) The item cap is
2 for `snack` and 3 for every other meal type.  (ii) Pass 1 stops as
soon as the cap is reached or the running total reaches
`target * 1.1`.  (iii) When pass 1 reaches an unused food of an
allowed category, the food is rejected (state unchanged) exactly when
the running total plus its portion calories exceeds `target * 1.15`,
and accepted exactly when it stays at or below it.  (iv) Pass 2 runs
if and only if pass 1 produced zero items or a running total below
`target * 0.7`, continuing from pass 1's state.  (v) Pass 2 stops at
the same cap / `target * 1.1` bound.  (vi) Pass 2 adds any unused food
without the `1.15` ceiling check, then breaks as soon as the total
reaches `target * 0.9`. -/
theorem pickFoodForMeal_two_pass_structure (t : ℚ) (mt dosha : String) :
    (mealMaxItems "snack" = 2 ∧ (mt ≠ "snack" → mealMaxItems mt = 3)) ∧
    (∀ (pref : List String) (maxI : Nat) (l : List Scored) (st : PickState),
      st.items.length ≥ maxI ∨ (st.kcal : ℚ) ≥ t * 1.1 →
      pickPassOne t mt dosha pref maxI l st = st) ∧
    (∀ (pref : List String) (maxI : Nat) (s : Scored) (l : List Scored) (st : PickState),
      ¬(st.items.length ≥ maxI ∨ (st.kcal : ℚ) ≥ t * 1.1) →
      st.used.contains (foodKey s.f) = false →
      ¬(pref ≠ [] ∧ ¬ pref.contains (jsOrS s.f.type (inferFoodType s.f))) →
      (((st.kcal + itemK mt t s st : Int) : ℚ) > t * 1.15 →
        pickPassOne t mt dosha pref maxI (s :: l) st = pickPassOne t mt dosha pref maxI l st) ∧
      (((st.kcal + itemK mt t s st : Int) : ℚ) ≤ t * 1.15 →
        pickPassOne t mt dosha pref maxI (s :: l) st =
          pickPassOne t mt dosha pref maxI l (pushFood mt dosha t s st))) ∧
    (∀ scored : List Scored,
      (¬((pickPassOne t mt dosha (mealPrefs mt) (mealMaxItems mt) scored
            { items := [], kcal := 0, used := [] }).items = [] ∨
          ((pickPassOne t mt dosha (mealPrefs mt) (mealMaxItems mt) scored
            { items := [], kcal := 0, used := [] }).kcal : ℚ) < t * 0.7) →
        pickFoodForMeal scored t mt dosha =
          pickPassOne t mt dosha (mealPrefs mt) (mealMaxItems mt) scored
            { items := [], kcal := 0, used := [] }) ∧
      (((pickPassOne t mt dosha (mealPrefs mt) (mealMaxItems mt) scored
            { items := [], kcal := 0, used := [] }).items = [] ∨
          ((pickPassOne t mt dosha (mealPrefs mt) (mealMaxItems mt) scored
            { items := [], kcal := 0, used := [] }).kcal : ℚ) < t * 0.7) →
        pickFoodForMeal scored t mt dosha =
          pickPassTwo t mt dosha (mealMaxItems mt) scored
            (pickPassOne t mt dosha (mealPrefs mt) (mealMaxItems mt) scored
              { items := [], kcal := 0, used := [] }))) ∧
    (∀ (maxI : Nat) (l : List Scored) (st : PickState),
      st.items.length ≥ maxI ∨ (st.kcal : ℚ) ≥ t * 1.1 →
      pickPassTwo t mt dosha maxI l st = st) ∧
    (∀ (maxI : Nat) (s : Scored) (l : List Scored) (st : PickState),
      ¬(st.items.length ≥ maxI ∨ (st.kcal : ℚ) ≥ t * 1.1) →
      st.used.contains (foodKey s.f) = false →
      (((pushFood mt dosha t s st).kcal : ℚ) ≥ t * 0.9 →
        pickPassTwo t mt dosha maxI (s :: l) st = pushFood mt dosha t s st) ∧
      (((pushFood mt dosha t s st).kcal : ℚ) < t * 0.9 →
        pickPassTwo t mt dosha maxI (s :: l) st =
          pickPassTwo t mt dosha maxI l (pushFood mt dosha t s st))) := by
  refine ⟨⟨rfl, ?_⟩, ?_, ?_, ?_, ?_, ?_⟩
  · intro h
    unfold mealMaxItems
    rw [if_neg h]
  · intro pref maxI l st h
    cases l with
    | nil => rfl
    | cons s rest =>
      unfold pickPassOne
      rw [if_pos h]
  · intro pref maxI s l st h1 h2 h3
    constructor
    · intro hgt
      conv_lhs => unfold pickPassOne
      rw [if_neg h1, if_neg (by rw [h2]; exact Bool.false_ne_true), if_neg h3,
        if_neg (not_le.mpr hgt)]
    · intro hle
      conv_lhs => unfold pickPassOne
      rw [if_neg h1, if_neg (by rw [h2]; exact Bool.false_ne_true), if_neg h3, if_pos hle]
  · intro scored
    constructor
    · intro h
      unfold pickFoodForMeal
      dsimp only
      rw [if_neg h]
    · intro h
      unfold pickFoodForMeal
      dsimp only
      rw [if_pos h]
  · intro maxI l st h
    cases l with
    | nil => rfl
    | cons s rest =>
      unfold pickPassTwo
      rw [if_pos h]
  · intro maxI s l st h1 h2
    constructor
    · intro h9
      conv_lhs => unfold pickPassTwo
      dsimp only
      rw [if_neg h1, if_neg (by rw [h2]; exact Bool.false_ne_true), if_pos h9]
    · intro h9
      conv_lhs => unfold pickPassTwo
      dsimp only
      rw [if_neg h1, if_neg (by rw [h2]; exact Bool.false_ne_true), if_neg (not_le.mpr h9)]

/-- A concrete scored fruit used to exercise the packer. -/
def fruitScored : Scored :=
  { f := { food_id := "e_001", name := "Apple", type := "fruit", calories_100g := 100 }
    score := 1
    reasons := { sDosha := 0, sSeason := 0, sNut := 0, season := "winter" } }

/-- Witness for C8 at target 100 and meal type `snack` (cap instance
at `lunch`): each conditional clause of the packer theorem
instantiated at concrete states. -/
theorem pickFoodForMeal_two_pass_structure_witness :
    mealMaxItems "lunch" = 3 ∧
    pickPassOne 100 "snack" "Vata" ["fruit", "nut", "dairy"] 2 [fruitScored]
        { items := [], kcal := 300, used := [] } =
      { items := [], kcal := 300, used := [] } ∧
    pickPassOne 100 "snack" "Vata" ["fruit", "nut", "dairy"] 2 [fruitScored]
        { items := [], kcal := 0, used := [] } =
      pickPassOne 100 "snack" "Vata" ["fruit", "nut", "dairy"] 2 []
        (pushFood "snack" "Vata" 100 fruitScored { items := [], kcal := 0, used := [] }) ∧
    pickFoodForMeal [] 100 "snack" "Vata" =
      pickPassTwo 100 "snack" "Vata" (mealMaxItems "snack") []
        (pickPassOne 100 "snack" "Vata" (mealPrefs "snack") (mealMaxItems "snack") []
          { items := [], kcal := 0, used := [] }) ∧
    pickPassTwo 100 "snack" "Vata" 2 [fruitScored] { items := [], kcal := 300, used := [] } =
      { items := [], kcal := 300, used := [] } ∧
    pickPassTwo 100 "snack" "Vata" 2 [fruitScored] { items := [], kcal := 0, used := [] } =
      pushFood "snack" "Vata" 100 fruitScored { items := [], kcal := 0, used := [] } := by
  have T := pickFoodForMeal_two_pass_structure (100 : ℚ) "snack" "Vata"
  have TL := pickFoodForMeal_two_pass_structure (100 : ℚ) "lunch" "Vata"
  refine ⟨TL.1.2 (by decide), ?_, ?_, ?_, ?_, ?_⟩
  · exact T.2.1 ["fruit", "nut", "dairy"] 2 [fruitScored]
      { items := [], kcal := 300, used := [] } (Or.inr (by norm_num))
  · exact (T.2.2.1 ["fruit", "nut", "dairy"] 2 fruitScored []
      { items := [], kcal := 0, used := [] } (by norm_num) (by decide) (by decide)).2
      (by norm_num +decide [itemK, foodKPer100, jsOrQ, calculatePortionSize, jround,
        fruitScored, max_def, min_def])
  · exact (T.2.2.2.1 []).2 (Or.inl rfl)
  · exact T.2.2.2.2.1 2 [fruitScored] { items := [], kcal := 300, used := [] }
      (Or.inr (by norm_num))
  · exact (T.2.2.2.2.2 2 fruitScored [] { items := [], kcal := 0, used := [] }
      (by norm_num) (by decide)).1
      (by norm_num +decide [pushFood, itemK, foodKPer100, jsOrQ, calculatePortionSize, jround,
        fruitScored, max_def, min_def])
